import Mathlib

/-!
Verification development for the video normalization-and-concatenation
pipeline of `property_approval_meeting/helpers/video_merger_helper.py`.

The Python helper is shallowly embedded here:

* probed ffprobe JSON values become the inductive `JVal`; Python dictionary
  access, `int(...)`, `float(...)` and `==` are embedded with their exception
  behaviour made explicit through `Except PyErr`;
* Python floats are modelled as exact rationals (`Rat`); the numeric
  literal `0.001` of the source is the rational `1 / 1000`;
* every external subprocess (ffprobe, ffmpeg encode, ffmpeg concat) and
  every filesystem effect is an oracle supplied through an environment
  record (`FileEnv`, `JobEnv`); the code's control flow over those oracle
  answers is translated branch by branch;
* `merge_videos_in_folder` is modelled from the point where the job has
  reached the normalization stage (the `video_files.sort()` of line 299 and
  the `try/finally` of lines 341-474), producing a `JobTrace` that records
  the returned value or the uncaught exception, the failure-ledger entries
  appended during the run, the segment list handed to the timestamp and
  playlist builders, and the cleanup behaviour of the `finally` block.
-/

/-- Python exception kinds raised by the fragments embedded here. -/
inductive PyErr where
  | valueError
  | zeroDivisionError
  | typeError
  | ioError
  | osError
deriving DecidableEq, Repr

/-- A JSON scalar as decoded from ffprobe output: an integer, a string, or
`null`/`None`. -/
inductive JVal where
  | jint (n : Int)
  | jstr (s : String)
  | jnull
deriving DecidableEq, Repr

/-- The fields of the probed first video stream that the helper reads
(`stream=codec_name,width,height,avg_frame_rate,pix_fmt`); a `none` field is
a key absent from the probed dictionary. -/
structure VideoInfo where
  codec_name : Option JVal
  width : Option JVal
  height : Option JVal
  avg_frame_rate : Option JVal
  pix_fmt : Option JVal
deriving DecidableEq, Repr

/-- The fields of the probed first audio stream
(`stream=codec_name,sample_rate,channels`). -/
structure AudioInfo where
  codec_name : Option JVal
  sample_rate : Option JVal
  channels : Option JVal
deriving DecidableEq, Repr

/-- The normalization target constants of `merge_videos_in_folder`
(lines 311-318). -/
structure TargetProfile where
  width : Int
  height : Int
  fps : Int
  pix_fmt : String
  video_codec : String
  audio_codec : String
  audio_sample_rate : String
  audio_channels : Int
deriving DecidableEq, Repr

def ENCODING_PRESET : String := "veryfast"

def ENCODING_CRF : Int := 28

/-- TARGET_* constants set in `merge_videos_in_folder`. -/
def target_profile : TargetProfile :=
  { width := 1280, height := 720, fps := 30, pix_fmt := "yuv420p",
    video_codec := "libx264", audio_codec := "aac",
    audio_sample_rate := "48000", audio_channels := 2 }

/-!
The standard `Rat` operations `+ - * /` are `@[irreducible]`, so concrete
runs of the embedded code could not be checked by kernel evaluation through
them.  The embedding therefore computes with the kernel-reducible wrappers
below, built on `Rat.divInt`; the bridge lemmas `qadd_eq`, `qsub_eq`,
`qmul_eq`, `qdiv_eq` and `qabs_eq` in the theorem section identify them with
the standard operations.
-/

def qadd (a b : Rat) : Rat := Rat.divInt (a.num * b.den + b.num * a.den) (a.den * b.den)

def qsub (a b : Rat) : Rat := Rat.divInt (a.num * b.den - b.num * a.den) (a.den * b.den)

def qmul (a b : Rat) : Rat := Rat.divInt (a.num * b.num) (a.den * b.den)

def qdiv (a b : Rat) : Rat := Rat.divInt (a.num * b.den) (a.den * b.num)

def qabs (a : Rat) : Rat := if a.num < 0 then -a else a

/-- Digits of a decimal numeral, most significant first; `none` for an
empty or non-digit sequence. -/
def parse_digits_chars (cs : List Char) : Option Nat :=
  if cs.isEmpty then none
  else
    cs.foldl
      (fun acc? c => acc?.bind
        (fun acc => if c.isDigit then some (acc * 10 + (c.toNat - 48)) else none))
      (some 0)

/-- Split a leading `+`/`-` sign off a numeral. -/
def sign_split : List Char → Int × List Char
  | '-' :: rest => (-1, rest)
  | '+' :: rest => (1, rest)
  | cs => (1, cs)

/-- Python `str.split(sep)` for a one-character separator: always at least
one (possibly empty) part. -/
def split_on_char (c : Char) : List Char → List (List Char)
  | [] => [[]]
  | x :: rest =>
    let r := split_on_char c rest
    if x = c then [] :: r
    else (x :: r.headD []) :: r.tail

/-- Python `float(s)` on the plain decimal numerals ffprobe emits
(`[sign] digits [. digits]`); anything else is a `ValueError`.  The float
value is kept exact as a rational. -/
def py_float_chars (cs : List Char) : Except PyErr Rat :=
  let sb := sign_split cs
  match split_on_char '.' sb.2 with
  | [ip] =>
    match parse_digits_chars ip with
    | some n => .ok (qmul (sb.1 : Rat) (n : Rat))
    | none => .error .valueError
  | [ip, fp] =>
    if ip.isEmpty && fp.isEmpty then .error .valueError
    else
      match (if ip.isEmpty then some 0 else parse_digits_chars ip),
            (if fp.isEmpty then some 0 else parse_digits_chars fp) with
      | some n, some m =>
          .ok (qmul (sb.1 : Rat) (qadd (n : Rat) (qdiv (m : Rat) ((10 ^ fp.length : Nat) : Rat))))
      | _, _ => .error .valueError
  | _ => .error .valueError

def pyFloat (s : String) : Except PyErr Rat :=
  py_float_chars s.toList

/-- Python `int(v)` applied to a decoded JSON value (`int(video_info.get(...))`):
an int passes through, a string must be a decimal integer numeral
(`ValueError` otherwise), `None` is a `TypeError`. -/
def pyIntOf (v : JVal) : Except PyErr Int :=
  match v with
  | .jint n => .ok n
  | .jstr s =>
    let sb := sign_split s.toList
    match parse_digits_chars sb.2 with
    | some n => .ok (sb.1 * (n : Int))
    | none => .error .valueError
  | .jnull => .error .typeError

/-- Python `d.get(key) == target` with a string target: only a string value
equal to the target compares true; a missing key (`None`), an int, or `null`
compares false without raising. -/
def pyEqStr (v : Option JVal) (target : String) : Bool :=
  match v with
  | some (.jstr s) => s == target
  | _ => false

/-- Python `d.get(key) == target` with an int target. -/
def pyEqInt (v : Option JVal) (target : Int) : Bool :=
  match v with
  | some (.jint n) => n == target
  | _ => false

/-- Lines 171-173: `current_fps_str = video_info.get('avg_frame_rate', '0/1')`
followed by `float(a)/float(b) if '/' in s else float(s)`.  A non-string
value raises `TypeError` (`'/' in n`), a zero denominator raises
`ZeroDivisionError` (Python raises on float division by zero), an
unparseable part raises `ValueError`. -/
def parse_avg_frame_rate (v : Option JVal) : Except PyErr Rat :=
  match v.getD (.jstr "0/1") with
  | .jstr s =>
    if s.toList.contains '/' then
      match split_on_char '/' s.toList with
      | a :: b :: _ =>
        match py_float_chars a with
        | .error e => .error e
        | .ok x =>
          match py_float_chars b with
          | .error e => .error e
          | .ok y => if y = 0 then .error .zeroDivisionError else .ok (qdiv x y)
      | _ => .error .valueError
    else pyFloat s
  | .jint _ => .error .typeError
  | .jnull => .error .typeError

/-- Lines 171-181: the `video_compliant` expression, with Python's
left-to-right short-circuit evaluation and its exceptions made explicit.
The fps tolerance is the source's strict comparison
`abs(current_fps - target_fps) < 0.001`. -/
def video_compliant_check (vi : VideoInfo) (t : TargetProfile) : Except PyErr Bool :=
  match parse_avg_frame_rate vi.avg_frame_rate with
  | .error e => .error e
  | .ok current_fps =>
    if pyEqStr vi.codec_name t.video_codec then
      match pyIntOf (vi.width.getD (.jint 0)) with
      | .error e => .error e
      | .ok w =>
        if w = t.width then
          match pyIntOf (vi.height.getD (.jint 0)) with
          | .error e => .error e
          | .ok h =>
            if h = t.height then
              if pyEqStr vi.pix_fmt t.pix_fmt then
                .ok (decide (qabs (qsub current_fps (t.fps : Rat)) < Rat.divInt 1 1000))
              else .ok false
            else .ok false
        else .ok false
    else .ok false

/-- Lines 183-189: `audio_compliant`; a file without an audio stream is
vacuously compliant. -/
def audio_compliant_check (ai : Option AudioInfo) (t : TargetProfile) : Bool :=
  match ai with
  | none => true
  | some a =>
    pyEqStr a.codec_name t.audio_codec &&
    pyEqStr a.sample_rate t.audio_sample_rate &&
    pyEqInt a.channels t.audio_channels

/-- Lines 169-198: `needs_normalization` starts `True`, is cleared only when
both checks pass, and any exception from the compliance evaluation is caught
and leaves it `True`. -/
def needs_normalization (vi : VideoInfo) (ai : Option AudioInfo) (t : TargetProfile) : Bool :=
  match video_compliant_check vi t with
  | .error _ => true
  | .ok vc => !(vc && audio_compliant_check ai t)

/-- Compliance as the specification words it (for comparison with the
code's check): same parsing, but the frame-rate tolerance is inclusive,
`abs difference ≤ 0.001`, and a parse failure is simply non-compliant. -/
def spec_video_compliant (vi : VideoInfo) (t : TargetProfile) : Bool :=
  match parse_avg_frame_rate vi.avg_frame_rate,
        pyIntOf (vi.width.getD (.jint 0)), pyIntOf (vi.height.getD (.jint 0)) with
  | .ok fps, .ok w, .ok h =>
    pyEqStr vi.codec_name t.video_codec && (w == t.width) && (h == t.height) &&
    pyEqStr vi.pix_fmt t.pix_fmt &&
    decide (qabs (qsub fps (t.fps : Rat)) ≤ Rat.divInt 1 1000)
  | _, _, _ => false

/-- Overall compliance as the specification words it: video compliant and
audio absent-or-matching. -/
def spec_compliant (vi : VideoInfo) (ai : Option AudioInfo) (t : TargetProfile) : Bool :=
  spec_video_compliant vi t && audio_compliant_check ai t

/-- `os.path.basename` on the POSIX paths the helper handles: everything
after the last `/`. -/
def os_path_basename (p : String) : String :=
  String.mk (p.toList.foldl (fun acc c => if c = '/' then [] else acc ++ [c]) [])

/-- Line 162: `os.path.join(temp_normalized_folder, f"normalized_{base_name}")`. -/
def normalized_output_path (temp_normalized_folder original_file_path : String) : String :=
  temp_normalized_folder ++ "/normalized_" ++ os_path_basename original_file_path

/-- Lines 202-213: the encode command built before audio options are added. -/
def normalize_command_base (original_file_path temp_output_file_path : String)
    (t : TargetProfile) (encoding_preset : String) (encoding_crf : Int) : List String :=
  ["ffmpeg", "-i", original_file_path,
   "-c:v", t.video_codec,
   "-preset", encoding_preset,
   "-crf", toString encoding_crf,
   "-vf",
   "scale=" ++ toString t.width ++ ":" ++ toString t.height ++
     ":force_original_aspect_ratio=decrease,pad=" ++ toString t.width ++ ":" ++
     toString t.height ++ ":(ow-iw)/2:(oh-ih)/2,fps=" ++ toString t.fps,
   "-pix_fmt", t.pix_fmt,
   "-y", temp_output_file_path]

/-- Lines 202-223: the full encode command; audio options are appended when
the probe found an audio stream, otherwise `-an` is appended so the output
carries no audio stream. -/
def normalize_command (original_file_path temp_output_file_path : String)
    (t : TargetProfile) (audio_present : Bool)
    (encoding_preset : String) (encoding_crf : Int) : List String :=
  if audio_present then
    normalize_command_base original_file_path temp_output_file_path t encoding_preset encoding_crf ++
      ["-c:a", t.audio_codec, "-b:a", "128k", "-ar", t.audio_sample_rate,
       "-ac", toString t.audio_channels]
  else
    normalize_command_base original_file_path temp_output_file_path t encoding_preset encoding_crf ++
      ["-an"]

/-- Outcome of `get_video_stream_info` for one file, abstracting the two
ffprobe subprocesses: either the decoded first video stream plus optional
first audio stream, or any of the failure paths (timeout, non-zero exit,
malformed JSON, tool missing, no video stream), each of which logs one
ledger entry and yields `(None, None)`. -/
inductive ProbeResult where
  | ok (video_stream : VideoInfo) (audio_stream : Option AudioInfo)
  | fail (reason : String)
deriving DecidableEq, Repr

/-- The answers of the external world for one file's pipeline: the probe
outcome, whether the ffmpeg encode succeeds (when invoked) and the reason
logged when it does not, and what `_get_video_duration` returns for the
normalized output and for the original file (`none` is a failed duration
probe, which the source only prints about and does not log). -/
structure FileEnv where
  probe : ProbeResult
  encode_ok : Bool
  encode_reason : String
  duration_of_normalized : Option Rat
  duration_of_original : Option Rat
deriving DecidableEq, Repr

/-- What one `_normalize_single_video` call produced: the returned pair, the
ledger entries it appended (as `(video_path, reason)` pairs), and whether and
with which command the external encoder was invoked. -/
structure NormOutcome where
  result : Option String × Option Rat
  logs : List (String × String)
  encoder_invoked : Bool
  command_used : Option (List String)
deriving DecidableEq, Repr

/-- Lines 150-257: `_normalize_single_video`.  A probe failure was already
logged by `get_video_stream_info` and yields `(None, None)`; a compliant file
is passed through with its original path and its re-probed duration; a
non-compliant file is encoded, a failed encode logs one entry, a successful
encode returns the temp path and its re-probed duration. -/
def normalize_single_video (original_file_path temp_normalized_folder : String)
    (t : TargetProfile) (encoding_preset : String) (encoding_crf : Int)
    (env : FileEnv) : NormOutcome :=
  match env.probe with
  | .fail reason =>
    { result := (none, none), logs := [(original_file_path, reason)],
      encoder_invoked := false, command_used := none }
  | .ok video_info audio_info =>
    if needs_normalization video_info audio_info t then
      let temp_out := normalized_output_path temp_normalized_folder original_file_path
      let cmd := normalize_command original_file_path temp_out t audio_info.isSome
        encoding_preset encoding_crf
      if env.encode_ok then
        { result := (some temp_out, env.duration_of_normalized), logs := [],
          encoder_invoked := true, command_used := some cmd }
      else
        { result := (none, none), logs := [(original_file_path, env.encode_reason)],
          encoder_invoked := true, command_used := some cmd }
    else
      { result := (some original_file_path, env.duration_of_original), logs := [],
        encoder_invoked := false, command_used := none }

/-- Result of one `log_failed_video` call against a filesystem that may
refuse the append-mode open or the write. -/
inductive LedgerWriteResult where
  | written (line : String)
  | raised (e : PyErr)
deriving DecidableEq, Repr

/-- Lines 40-43: `log_failed_video` opens the log in append mode and writes
one formatted line; there is no exception handling around the `open`/`write`,
so a filesystem failure propagates to the caller. -/
def log_failed_video (fs_open_ok : Bool) (video_path reason : String) : LedgerWriteResult :=
  if fs_open_ok then .written (video_path ++ " | Reason: " ++ reason ++ "\n")
  else .raised .osError

/-- Python code-point comparison of strings, as `list.sort()` uses. -/
def char_list_le : List Char → List Char → Bool
  | [], _ => true
  | _ :: _, [] => false
  | a :: as, b :: bs =>
    if a.toNat < b.toNat then true
    else if b.toNat < a.toNat then false
    else char_list_le as bs

def str_le (a b : String) : Bool :=
  char_list_le a.toList b.toList

def insert_sorted (a : String) : List String → List String
  | [] => [a]
  | b :: rest => if str_le a b then a :: b :: rest else b :: insert_sorted a rest

/-- Line 299: `video_files.sort()` — a stable sort by code-point order,
embedded as insertion sort. -/
def sort_strings : List String → List String
  | [] => []
  | a :: rest => insert_sorted a (sort_strings rest)

def video_extensions : List String :=
  [".mp4", ".mov", ".webm", ".avi", ".mkv", ".flv"]

/-- ASCII lowercasing by code point, matching `str.lower()` on the
extension characters involved here. -/
def lower_code (c : Char) : Nat :=
  if 65 ≤ c.toNat && c.toNat ≤ 90 then c.toNat + 32 else c.toNat

/-- `filename.lower().endswith(ext)` by code-point comparison. -/
def ends_with_lower (filename ext : String) : Bool :=
  ((ext.toList.map lower_code).reverse).isPrefixOf ((filename.toList.map lower_code).reverse)

/-- Line 297: `filename.lower().endswith(video_extensions)`. -/
def has_video_extension (filename : String) : Bool :=
  video_extensions.any (ends_with_lower filename)

/-- Lines 294-298: scan the directory listing and join matching names onto
the input folder. -/
def discover_video_files (input_folder : String) (entries : List String) : List String :=
  (entries.filter has_video_extension).map (fun filename => input_folder ++ "/" ++ filename)

/-- Left-pad a numeral with zeros to the given width (Python `{:02d}`-style). -/
def pad_zeros (w : Nat) (s : String) : String :=
  if s.length < w then String.mk (List.replicate (w - s.length) '0') ++ s else s

/-- Lines 377-382: `format_timestamp`.  `//` and `%` are Python float floor
division and modulo (exact over rationals here); the seconds are rendered
`{:06.3f}` — two integer digits zero-padded, three decimals, with the float
formatter's rounding to the nearest thousandth embedded as
`floor(x * 1000 + 1/2)`. -/
def format_timestamp (total_seconds : Rat) : String :=
  let hours : Int := Rat.floor (qdiv total_seconds 3600)
  let minutes : Int :=
    Rat.floor (qdiv (qsub total_seconds (qmul 3600 ((Rat.floor (qdiv total_seconds 3600) : Int) : Rat))) 60)
  let seconds : Rat := qsub total_seconds (qmul 60 ((Rat.floor (qdiv total_seconds 60) : Int) : Rat))
  let millis : Int := Rat.floor (qadd (qmul seconds 1000) (Rat.divInt 1 2))
  pad_zeros 2 (toString hours) ++ ":" ++ pad_zeros 2 (toString minutes) ++ ":" ++
    pad_zeros 2 (toString (millis / 1000)) ++ "." ++ pad_zeros 3 (toString (millis % 1000))

/-- First two chunks written to the timestamp file (lines 386-387). -/
def timestamp_header_lines (output_path : String) : List String :=
  ["Timestamps for Merged Video: " ++ os_path_basename output_path ++ "\n",
   "-----------------------------------------------------------------\n\n"]

/-- Lines 389-393: the per-segment loop of the timestamp manifest.  Returns
the lines written and the final value of the running cumulative time.
A segment is `(normalized_path, duration, original_file_path)`. -/
def timestamp_segment_loop (i : Nat) (current_cumulative_time_seconds : Rat) :
    List (String × Rat × String) → List String × Rat
  | [] => ([], current_cumulative_time_seconds)
  | (_, duration, original_file_path) :: rest =>
    let line := format_timestamp current_cumulative_time_seconds ++ " - Start of: " ++
      os_path_basename original_file_path ++ " (Segment " ++ toString (i + 1) ++ ")\n"
    let r := timestamp_segment_loop (i + 1) (qadd current_cumulative_time_seconds duration) rest
    (line :: r.1, r.2)

/-- Line 395: the trailing total-duration chunk. -/
def total_duration_line (total : Rat) : String :=
  "\nTotal Merged Video Duration: " ++ format_timestamp total ++ "\n"

/-- Lines 385-395: everything written to the timestamp manifest, in order. -/
def timestamp_file_lines (output_path : String) (segs : List (String × Rat × String)) :
    List String :=
  let r := timestamp_segment_loop 0 0 segs
  timestamp_header_lines output_path ++ r.1 ++ [total_duration_line r.2]

/-- Line 406: one playlist line, `file '<path>'`. -/
def playlist_line (path : String) : String :=
  "file \x27" ++ path ++ "\x27\n"

/-- What one `_remove_temp_folder_robustly` call did: how many `rmtree`
attempts were made, the sleeps between failed attempts, and whether the
directory was removed in the end. -/
structure RemovalTrace where
  attempts : Nat
  sleeps : List Rat
  removed : Bool
deriving DecidableEq, Repr

/-- Lines 265-274: the retry loop; a failed attempt sleeps `delay` seconds
and multiplies the delay by 1.5 before the next attempt. -/
def remove_attempts_loop (attempt_succeeds : Nat → Bool) : Nat → Nat → Rat → RemovalTrace
  | _, 0, _ => { attempts := 0, sleeps := [], removed := false }
  | i, fuel + 1, delay =>
    if attempt_succeeds i then { attempts := 1, sleeps := [], removed := true }
    else
      let r := remove_attempts_loop attempt_succeeds (i + 1) fuel (qmul delay (Rat.divInt 3 2))
      { attempts := r.attempts + 1, sleeps := delay :: r.sleeps, removed := r.removed }

/-- Lines 260-277: `_remove_temp_folder_robustly` (defaults `retries=5`,
`delay=1`).  A missing directory returns immediately; exhausting the retries
only prints a warning — the function always returns normally. -/
def remove_temp_folder_robustly (folder_exists : Bool) (attempt_succeeds : Nat → Bool)
    (retries : Nat) (delay : Rat) : RemovalTrace :=
  if folder_exists then remove_attempts_loop attempt_succeeds 0 retries delay
  else { attempts := 0, sleeps := [], removed := true }

/-- Outcome of the final ffmpeg concat subprocess (lines 426-461). -/
inductive ConcatOutcome where
  | ok
  | timeout
  | failed (stderr : String)
  | tool_not_found
  | unexpected (msg : String)
deriving DecidableEq, Repr

/-- Ledger entry appended when the final merge fails, keyed against the
intended output path (lines 436-461); `none` on success. -/
def concat_failure_entry (output_path : String) : ConcatOutcome → Option (String × String)
  | .ok => none
  | .timeout =>
    some ("Merged output: " ++ output_path,
      "Final FFmpeg merge timed out after 600 seconds.")
  | .failed stderr =>
    some ("Merged output: " ++ output_path,
      "An error occurred during final video merging with FFmpeg: " ++ stderr)
  | .tool_not_found =>
    some ("Merged output: " ++ output_path, "\x27ffmpeg\x27 command not found.")
  | .unexpected msg =>
    some ("Merged output: " ++ output_path,
      "An unexpected error occurred during final merge: " ++ msg)

/-- The answers of the external world for one whole job run: the per-file
oracles, the order in which the pool's workers complete (indices into the
sorted file list), whether a KeyboardInterrupt arrives during the run, the
filesystem's behaviour for the manifest and playlist writes and for cleanup,
and the concat subprocess outcome. -/
structure JobEnv where
  file_env : String → FileEnv
  completion_order : List Nat
  interrupted : Bool
  manifest_write_ok : Bool
  playlist_create_ok : Bool
  playlist_write_ok : Bool
  playlist_err : String
  playlist_remove_ok : Bool
  concat : ConcatOutcome
  temp_remove_ok : Nat → Bool

/-- How `merge_videos_in_folder` left its caller: a returned boolean or an
uncaught exception propagating out. -/
inductive MergeResult where
  | returned (b : Bool)
  | raised (e : PyErr)
deriving DecidableEq, Repr

/-- What the `finally` block (lines 466-473) did. -/
structure CleanupTrace where
  playlist_removal_attempted : Bool
  playlist_deleted : Bool
  temp : RemovalTrace
deriving DecidableEq, Repr

/-- Run the `finally` block: remove the playlist file if it exists (a failed
removal is only a warning), then remove the temp folder with 5 retries
starting from a 1 second delay. -/
def run_cleanup (playlist_file_exists : Bool) (env : JobEnv) : CleanupTrace :=
  { playlist_removal_attempted := playlist_file_exists,
    playlist_deleted := playlist_file_exists && env.playlist_remove_ok,
    temp := remove_temp_folder_robustly true env.temp_remove_ok 5 1 }

/-- Everything the `try` body produced before the `finally` ran. -/
structure BodyTrace where
  result : MergeResult
  ledger : List (String × String)
  segments_used : List (String × Rat × String)
  manifest_written : Option (List String)
  playlist_written : Option (List String)
  concat_invoked : Bool
  playlist_file_exists : Bool
deriving DecidableEq, Repr

/-- Lines 352-366 as seen from the result-collection loop: the worker for
submission index `i` ran `_normalize_single_video` on the `i`-th sorted file.
The pool hands back results in completion order; the loop reads
`ordered_futures[i].result()` in submission order, so the collected segment
list is indexed by submission position. -/
def collect_segments (sorted_files : List String) (outcome : Nat → NormOutcome)
    (completion_order : List Nat) : List (String × Rat × String) :=
  let completed := completion_order.map (fun j => (j, outcome j))
  (List.range sorted_files.length).filterMap (fun i =>
    match completed.find? (fun pr => pr.1 == i) with
    | some pr =>
      match pr.2.result with
      | (some normalized_path, some duration) =>
        some (normalized_path, duration, sorted_files.getD i "")
      | _ => none
    | none => none)

/-- Ledger entries appended by the workers, in the order the workers
complete (each worker calls `log_failed_video` itself). -/
def worker_logs (outcome : Nat → NormOutcome) (completion_order : List Nat) :
    List (String × String) :=
  (completion_order.map (fun j => (outcome j).logs)).flatten

/-- Lines 299 and 341-461: the body of the `try` in `merge_videos_in_folder`,
starting from the sort of the discovered files.  Branches, in source order:
KeyboardInterrupt (line 462); empty surviving-segment list returns `False`
(lines 367-370, no ledger entry); the timestamp-manifest write has no
exception handler, so a filesystem error there propagates (lines 385-395);
a failed playlist write logs one `N/A` entry and returns `False`
(lines 403-412); the final merge returns `True` on success and logs one
entry keyed on the output path otherwise (lines 426-461). -/
def merge_body (video_files : List String) (temp_normalized_folder output_path : String)
    (t : TargetProfile) (encoding_preset : String) (encoding_crf : Int)
    (env : JobEnv) : BodyTrace :=
  if env.interrupted then
    { result := .returned false,
      ledger := [("Process Interrupted", "User cancelled operation")],
      segments_used := [], manifest_written := none, playlist_written := none,
      concat_invoked := false, playlist_file_exists := false }
  else
    let sorted_files := sort_strings video_files
    let outcome := fun i => normalize_single_video (sorted_files.getD i "")
      temp_normalized_folder t encoding_preset encoding_crf
      (env.file_env (sorted_files.getD i ""))
    let ledger0 := worker_logs outcome env.completion_order
    let segs := collect_segments sorted_files outcome env.completion_order
    if segs.isEmpty then
      { result := .returned false, ledger := ledger0, segments_used := segs,
        manifest_written := none, playlist_written := none,
        concat_invoked := false, playlist_file_exists := false }
    else if !env.manifest_write_ok then
      { result := .raised .osError, ledger := ledger0, segments_used := segs,
        manifest_written := none, playlist_written := none,
        concat_invoked := false, playlist_file_exists := false }
    else
      let manifest := timestamp_file_lines output_path segs
      if !env.playlist_create_ok then
        { result := .returned false,
          ledger := ledger0 ++
            [("N/A", "Error creating FFmpeg concat list file: " ++ env.playlist_err)],
          segments_used := segs, manifest_written := some manifest,
          playlist_written := none, concat_invoked := false,
          playlist_file_exists := false }
      else if !env.playlist_write_ok then
        { result := .returned false,
          ledger := ledger0 ++
            [("N/A", "Error creating FFmpeg concat list file: " ++ env.playlist_err)],
          segments_used := segs, manifest_written := some manifest,
          playlist_written := none, concat_invoked := false,
          playlist_file_exists := true }
      else
        let playlist := segs.map (fun s => playlist_line s.1)
        match concat_failure_entry output_path env.concat with
        | none =>
          { result := .returned true, ledger := ledger0, segments_used := segs,
            manifest_written := some manifest, playlist_written := some playlist,
            concat_invoked := true, playlist_file_exists := true }
        | some entry =>
          { result := .returned false, ledger := ledger0 ++ [entry],
            segments_used := segs, manifest_written := some manifest,
            playlist_written := some playlist, concat_invoked := true,
            playlist_file_exists := true }

/-- Everything one `merge_videos_in_folder` run did from the normalization
stage on, with the `finally` block's cleanup attached. -/
structure JobTrace where
  result : MergeResult
  ledger : List (String × String)
  segments_used : List (String × Rat × String)
  manifest_written : Option (List String)
  playlist_written : Option (List String)
  concat_invoked : Bool
  cleanup : CleanupTrace
deriving DecidableEq, Repr

/-- Lines 299 and 341-474: `merge_videos_in_folder` from the normalization
stage: run the `try` body, then always run the `finally` cleanup, whatever
exit path the body took (return, uncaught exception, or interrupt). -/
def merge_videos_in_folder (video_files : List String)
    (temp_normalized_folder output_path : String) (t : TargetProfile)
    (encoding_preset : String) (encoding_crf : Int) (env : JobEnv) : JobTrace :=
  let b := merge_body video_files temp_normalized_folder output_path t
    encoding_preset encoding_crf env
  { result := b.result, ledger := b.ledger, segments_used := b.segments_used,
    manifest_written := b.manifest_written, playlist_written := b.playlist_written,
    concat_invoked := b.concat_invoked,
    cleanup := run_cleanup b.playlist_file_exists env }

/-- The per-submission-index outcome function a job runs: worker `i`
processes the `i`-th file of the sorted list. -/
def job_outcome (video_files : List String) (temp_normalized_folder : String)
    (t : TargetProfile) (encoding_preset : String) (encoding_crf : Int)
    (env : JobEnv) : Nat → NormOutcome :=
  fun i => normalize_single_video ((sort_strings video_files).getD i "")
    temp_normalized_folder t encoding_preset encoding_crf
    (env.file_env ((sort_strings video_files).getD i ""))

/-- The segment a file contributes when its whole per-file pipeline
(probe, optional encode, duration re-probe) succeeds, and `none` otherwise. -/
def segment_of (temp_normalized_folder : String) (t : TargetProfile)
    (encoding_preset : String) (encoding_crf : Int) (fe : FileEnv)
    (p : String) : Option (String × Rat × String) :=
  match (normalize_single_video p temp_normalized_folder t encoding_preset
      encoding_crf fe).result with
  | (some normalized_path, some duration) => some (normalized_path, duration, p)
  | _ => none

/-- A file survives the whole per-file pipeline. -/
def file_fully_succeeds (temp_normalized_folder : String) (t : TargetProfile)
    (encoding_preset : String) (encoding_crf : Int) (fe : FileEnv) (p : String) : Bool :=
  (segment_of temp_normalized_folder t encoding_preset encoding_crf fe p).isSome

/-- A file fails probing or normalization: the pipeline returned
`(None, None)` and appended exactly one ledger entry. -/
def file_fails_logged (temp_normalized_folder : String) (t : TargetProfile)
    (encoding_preset : String) (encoding_crf : Int) (fe : FileEnv) (p : String) : Bool :=
  let out := normalize_single_video p temp_normalized_folder t encoding_preset
    encoding_crf fe
  out.result.1.isNone && out.result.2.isNone && (out.logs.length == 1)

/-- A probed profile that exactly matches `target_profile` (fps `30/1`),
with no audio stream. -/
def vi_compliant : VideoInfo :=
  { codec_name := some (.jstr "libx264"), width := some (.jint 1280),
    height := some (.jint 720), avg_frame_rate := some (.jstr "30/1"),
    pix_fmt := some (.jstr "yuv420p") }

/-- A probed profile matching `target_profile` everywhere except that the
frame rate `30001/1000` differs from the target by exactly `1/1000`. -/
def vi_boundary : VideoInfo :=
  { codec_name := some (.jstr "libx264"), width := some (.jint 1280),
    height := some (.jint 720), avg_frame_rate := some (.jstr "30001/1000"),
    pix_fmt := some (.jstr "yuv420p") }

/-- A probed profile whose frame-rate string has a zero denominator. -/
def vi_zero_den : VideoInfo :=
  { codec_name := some (.jstr "libx264"), width := some (.jint 1280),
    height := some (.jint 720), avg_frame_rate := some (.jstr "30/0"),
    pix_fmt := some (.jstr "yuv420p") }

/-- A non-compliant no-audio profile (SD resolution, 25 fps). -/
def vi_sd_no_audio : VideoInfo :=
  { codec_name := some (.jstr "libx264"), width := some (.jint 640),
    height := some (.jint 480), avg_frame_rate := some (.jstr "25/1"),
    pix_fmt := some (.jstr "yuv420p") }

/-- A file whose whole pipeline succeeds by pass-through (3-second duration). -/
def fe_success : FileEnv :=
  { probe := .ok vi_compliant none, encode_ok := true, encode_reason := "",
    duration_of_normalized := some 3, duration_of_original := some 3 }

/-- A file whose probe fails (logged by `get_video_stream_info`). -/
def fe_probe_fail : FileEnv :=
  { probe := .fail "ffprobe timed out after 120s for \x27b.mp4\x27",
    encode_ok := false, encode_reason := "", duration_of_normalized := none,
    duration_of_original := none }

/-- The boundary-fps file, with a working encoder. -/
def fe_boundary : FileEnv :=
  { probe := .ok vi_boundary none, encode_ok := true, encode_reason := "",
    duration_of_normalized := some 10, duration_of_original := some 10 }

/-- A compliant file whose duration re-probe fails. -/
def fe_duration_fail : FileEnv :=
  { probe := .ok vi_compliant none, encode_ok := true, encode_reason := "",
    duration_of_normalized := none, duration_of_original := none }

/-- The non-compliant no-audio file, with a working encoder. -/
def fe_sd_no_audio : FileEnv :=
  { probe := .ok vi_sd_no_audio none, encode_ok := true, encode_reason := "",
    duration_of_normalized := some 3, duration_of_original := some 3 }

/-- A job environment where every external effect succeeds. -/
def base_job_env (fe : String → FileEnv) (order : List Nat) : JobEnv :=
  { file_env := fe, completion_order := order, interrupted := false,
    manifest_write_ok := true, playlist_create_ok := true,
    playlist_write_ok := true, playlist_err := "", playlist_remove_ok := true,
    concat := .ok, temp_remove_ok := fun _ => true }

/-- Two files, `a` succeeding and `b` failing its probe, with the workers
finishing in reverse submission order. -/
def env_two_files : JobEnv :=
  base_job_env (fun p => if p = "/in/a.mp4" then fe_success else fe_probe_fail) [1, 0]

/-- One successful file, but the filesystem refuses the timestamp-manifest
write. -/
def env_manifest_fail : JobEnv :=
  { base_job_env (fun _ => fe_success) [0] with manifest_write_ok := false }

/-- Two files, `a` losing its duration re-probe and `b` succeeding. -/
def env_duration_gap : JobEnv :=
  base_job_env (fun p => if p = "/in/a.mp4" then fe_duration_fail else fe_success) [0, 1]


/-- One successful file, with every temp-folder removal attempt failing. -/
def env_locked_temp : JobEnv :=
  { base_job_env (fun _ => fe_success) [0] with temp_remove_ok := fun _ => false }

/-- The boundary-fps file as the only input of a job. -/
def env_boundary : JobEnv :=
  base_job_env (fun _ => fe_boundary) [0]

/-- Two sample segments for evaluating the timestamp manifest builder. -/
def segs_sample : List (String × Rat × String) :=
  [("/in/temp_normalized_videos/normalized_a.mp4", 5, "/in/a.mp4"),
   ("/in/temp_normalized_videos/normalized_b.mp4", Rat.divInt 3 2, "/in/b.mp4")]

/-!  Theorems.  General lemmas about the embedding come first, the claim
theorems and their witnesses afterwards. -/

theorem num_eq_mul_den (a : Rat) : (a.num : ℚ) = a * (a.den : ℚ) := by
  have ha : ((a.den : ℚ)) ≠ 0 := by exact_mod_cast a.den_nz
  exact (div_eq_iff ha).1 (Rat.num_div_den a)

/-- `qadd` is rational addition. -/
theorem qadd_eq (a b : Rat) : qadd a b = a + b := by
  have ha : ((a.den : ℚ)) ≠ 0 := by exact_mod_cast a.den_nz
  have hb : ((b.den : ℚ)) ≠ 0 := by exact_mod_cast b.den_nz
  rw [qadd, Rat.divInt_eq_div]
  push_cast
  rw [div_eq_iff (mul_ne_zero ha hb), num_eq_mul_den a, num_eq_mul_den b]
  ring

/-- `qsub` is rational subtraction. -/
theorem qsub_eq (a b : Rat) : qsub a b = a - b := by
  have ha : ((a.den : ℚ)) ≠ 0 := by exact_mod_cast a.den_nz
  have hb : ((b.den : ℚ)) ≠ 0 := by exact_mod_cast b.den_nz
  rw [qsub, Rat.divInt_eq_div]
  push_cast
  rw [div_eq_iff (mul_ne_zero ha hb), num_eq_mul_den a, num_eq_mul_den b]
  ring

/-- `qmul` is rational multiplication. -/
theorem qmul_eq (a b : Rat) : qmul a b = a * b := by
  have ha : ((a.den : ℚ)) ≠ 0 := by exact_mod_cast a.den_nz
  have hb : ((b.den : ℚ)) ≠ 0 := by exact_mod_cast b.den_nz
  rw [qmul, Rat.divInt_eq_div]
  push_cast
  rw [div_eq_iff (mul_ne_zero ha hb), num_eq_mul_den a, num_eq_mul_den b]
  ring

/-- `qdiv` is rational division (both send division by zero to zero). -/
theorem qdiv_eq (a b : Rat) : qdiv a b = a / b := by
  rcases eq_or_ne b 0 with hb | hb
  · subst hb
    simp [qdiv, Rat.divInt_eq_div]
  · have ha : ((a.den : ℚ)) ≠ 0 := by exact_mod_cast a.den_nz
    have hbn : ((b.num : ℚ)) ≠ 0 := by exact_mod_cast Rat.num_ne_zero.mpr hb
    rw [qdiv, Rat.divInt_eq_div]
    push_cast
    rw [div_eq_div_iff (mul_ne_zero ha hbn) hb, num_eq_mul_den a, num_eq_mul_den b]
    ring

/-- `qabs` is the rational absolute value. -/
theorem qabs_eq (a : Rat) : qabs a = |a| := by
  rw [qabs]
  split
  · have hneg : a < 0 := by
      by_contra hc
      exact absurd (Rat.num_nonneg.mpr (not_lt.mp hc)) (not_le.mpr (by assumption))
    rw [abs_of_neg hneg]
  · have hpos : 0 ≤ a := Rat.num_nonneg.mp (not_lt.mp (by assumption))
    rw [abs_of_nonneg hpos]

theorem map_getD_range {α : Type} (l : List α) (d : α) :
    (List.range l.length).map (fun i => l.getD i d) = l := by
  induction l with
  | nil => rfl
  | cons a t ih =>
    rw [List.length_cons, List.range_succ_eq_map, List.map_cons, List.map_map]
    have hc : ((fun i => (a :: t).getD i d) ∘ Nat.succ) = (fun i => t.getD i d) := by
      funext i
      simp [List.getD_cons_succ]
    rw [List.getD_cons_zero, hc, ih]

theorem filterMap_getD_range {α β : Type} (l : List α) (d : α) (h : α → Option β) :
    (List.range l.length).filterMap (fun i => h (l.getD i d)) = l.filterMap h := by
  have : (fun i => h (l.getD i d)) = h ∘ (fun i => l.getD i d) := rfl
  rw [this, ← List.filterMap_map, map_getD_range]

theorem filterMap_congr_mem {α β : Type} {l : List α} {f g : α → Option β}
    (h : ∀ a ∈ l, f a = g a) : l.filterMap f = l.filterMap g := by
  induction l with
  | nil => rfl
  | cons a t ih =>
    rw [List.filterMap_cons, List.filterMap_cons, h a (List.mem_cons_self a t),
      ih (fun x hx => h x (List.mem_cons_of_mem a hx))]

theorem find?_indexed_map {β : Type} (g : Nat → β) (i : Nat) :
    ∀ order : List Nat, i ∈ order →
      (order.map (fun j => (j, g j))).find? (fun pr => pr.1 == i) = some (i, g i) := by
  intro order
  induction order with
  | nil => intro h; cases h
  | cons j rest ih =>
    intro hmem
    rw [List.map_cons]
    by_cases hj : j = i
    · subst hj
      rw [List.find?_cons_of_pos]
      simp
    · rw [List.find?_cons_of_neg]
      · exact ih ((List.mem_cons.mp hmem).resolve_left (fun h => hj h.symm))
      · simp [hj]

/-- Reassembling pool results by submission index is independent of the
completion order: any permutation of the indices yields the filterMap of the
per-index outcome over the submission order. -/
theorem collect_segments_eq (sorted_files : List String) (outcome : Nat → NormOutcome)
    (order : List Nat) (h : order.Perm (List.range sorted_files.length)) :
    collect_segments sorted_files outcome order =
      (List.range sorted_files.length).filterMap (fun i =>
        match (outcome i).result with
        | (some np, some d) => some (np, d, sorted_files.getD i "")
        | _ => none) := by
  unfold collect_segments
  apply filterMap_congr_mem
  intro i hi
  rw [find?_indexed_map outcome i order (h.mem_iff.mpr hi)]

theorem worker_logs_length (outcome : Nat → NormOutcome) (order : List Nat) (n : Nat)
    (h : order.Perm (List.range n)) :
    (worker_logs outcome order).length =
      ((List.range n).map (fun i => (outcome i).logs.length)).sum := by
  unfold worker_logs
  rw [List.length_flatten, List.map_map]
  exact (h.map (fun i => (outcome i).logs.length)).sum_eq

theorem length_filterMap_eq_countP {α β : Type} (l : List α) (f : α → Option β) :
    (l.filterMap f).length = l.countP (fun a => (f a).isSome) := by
  induction l with
  | nil => rfl
  | cons a t ih =>
    rw [List.filterMap_cons, List.countP_cons]
    cases hfa : f a <;> simp [hfa, ih]

theorem countP_true_add_countP_false {α : Type} (l : List α) (p : α → Bool) :
    l.countP p + l.countP (fun a => !(p a)) = l.length := by
  induction l with
  | nil => rfl
  | cons a t ih =>
    rw [List.countP_cons, List.countP_cons, List.length_cons]
    cases hpa : p a <;> simp [hpa] <;> omega

theorem sum_map_eq_countP {α : Type} (l : List α) (g : α → Nat) (p : α → Bool)
    (h : ∀ x ∈ l, (p x = true ∧ g x = 0) ∨ (p x = false ∧ g x = 1)) :
    (l.map g).sum = l.countP (fun x => !(p x)) := by
  induction l with
  | nil => rfl
  | cons a t ih =>
    rw [List.map_cons, List.sum_cons, List.countP_cons,
      ih (fun x hx => h x (List.mem_cons_of_mem a hx))]
    rcases h a (List.mem_cons_self a t) with ⟨hp, hg⟩ | ⟨hp, hg⟩ <;> simp [hp, hg]
    omega

theorem normalize_single_video_cases (p tf : String) (t : TargetProfile)
    (preset : String) (crf : Int) (fe : FileEnv) :
    ((normalize_single_video p tf t preset crf fe).result = (none, none) ∧
      (normalize_single_video p tf t preset crf fe).logs.length = 1) ∨
    ((normalize_single_video p tf t preset crf fe).result.1.isSome = true ∧
      (normalize_single_video p tf t preset crf fe).logs = []) := by
  unfold normalize_single_video
  cases hp : fe.probe with
  | fail r => left; exact ⟨rfl, rfl⟩
  | ok vi ai =>
    by_cases hn : needs_normalization vi ai t
    · by_cases he : fe.encode_ok
      · right; simp [hn, he]
      · left; simp [hn, he]
    · right; simp [hn]

theorem succeeds_logs_nil (p tf : String) (t : TargetProfile) (preset : String)
    (crf : Int) (fe : FileEnv)
    (hs : file_fully_succeeds tf t preset crf fe p = true) :
    (normalize_single_video p tf t preset crf fe).logs = [] := by
  rcases normalize_single_video_cases p tf t preset crf fe with ⟨hr, _⟩ | ⟨_, hl⟩
  · exfalso
    unfold file_fully_succeeds segment_of at hs
    rw [hr] at hs
    simp at hs
  · exact hl

theorem fails_logged_logs_length (p tf : String) (t : TargetProfile) (preset : String)
    (crf : Int) (fe : FileEnv)
    (hf : file_fails_logged tf t preset crf fe p = true) :
    (normalize_single_video p tf t preset crf fe).logs.length = 1 := by
  unfold file_fails_logged at hf
  simp only [Bool.and_eq_true, beq_iff_eq] at hf
  exact hf.2

theorem fails_not_succeeds (p tf : String) (t : TargetProfile) (preset : String)
    (crf : Int) (fe : FileEnv)
    (hf : file_fails_logged tf t preset crf fe p = true) :
    file_fully_succeeds tf t preset crf fe p = false := by
  unfold file_fails_logged at hf
  simp only [Bool.and_eq_true, beq_iff_eq] at hf
  unfold file_fully_succeeds segment_of
  rcases hr : (normalize_single_video p tf t preset crf fe).result with ⟨o1, o2⟩
  rw [hr] at hf
  rcases hf with ⟨⟨h1, h2⟩, _⟩
  cases o1 with
  | none =>
    cases o2 with
    | none => rfl
    | some d => simp at h2
  | some np => simp at h1

theorem merge_body_segments (files : List String) (tf op : String) (t : TargetProfile)
    (preset : String) (crf : Int) (env : JobEnv) (h1 : env.interrupted = false) :
    (merge_body files tf op t preset crf env).segments_used =
      collect_segments (sort_strings files) (job_outcome files tf t preset crf env)
        env.completion_order := by
  unfold merge_body job_outcome
  rw [h1]
  simp only [Bool.false_eq_true, if_false]
  split
  · rfl
  · split
    · rfl
    · split
      · rfl
      · split
        · rfl
        · split <;> rfl

theorem merge_body_playlist_exists (files : List String) (tf op : String)
    (t : TargetProfile) (preset : String) (crf : Int) (env : JobEnv) :
    (merge_body files tf op t preset crf env).playlist_written.isSome = true →
    (merge_body files tf op t preset crf env).playlist_file_exists = true := by
  unfold merge_body
  dsimp only
  repeat' split
  all_goals intro h
  all_goals first
    | rfl
    | exact absurd h (by simp)

theorem merge_body_happy (files : List String) (tf op : String) (t : TargetProfile)
    (preset : String) (crf : Int) (env : JobEnv)
    (h1 : env.interrupted = false) (h6 : env.manifest_write_ok = true)
    (h7 : env.playlist_create_ok = true) (h8 : env.playlist_write_ok = true)
    (h9 : env.concat = .ok)
    (hne : (collect_segments (sort_strings files) (job_outcome files tf t preset crf env)
      env.completion_order).isEmpty = false) :
    merge_body files tf op t preset crf env =
      { result := .returned true,
        ledger := worker_logs (job_outcome files tf t preset crf env) env.completion_order,
        segments_used := collect_segments (sort_strings files)
          (job_outcome files tf t preset crf env) env.completion_order,
        manifest_written := some (timestamp_file_lines op (collect_segments (sort_strings files)
          (job_outcome files tf t preset crf env) env.completion_order)),
        playlist_written := some ((collect_segments (sort_strings files)
          (job_outcome files tf t preset crf env) env.completion_order).map
            (fun s => playlist_line s.1)),
        concat_invoked := true, playlist_file_exists := true } := by
  unfold merge_body
  unfold job_outcome at hne ⊢
  simp only [h1, h6, h7, h8, h9, Bool.not_true, Bool.false_eq_true, if_false, hne,
    concat_failure_entry]

theorem merge_body_manifest_fail (files : List String) (tf op : String) (t : TargetProfile)
    (preset : String) (crf : Int) (env : JobEnv)
    (h1 : env.interrupted = false) (h2 : env.manifest_write_ok = false)
    (hne : (collect_segments (sort_strings files) (job_outcome files tf t preset crf env)
      env.completion_order).isEmpty = false) :
    merge_body files tf op t preset crf env =
      { result := .raised .osError,
        ledger := worker_logs (job_outcome files tf t preset crf env) env.completion_order,
        segments_used := collect_segments (sort_strings files)
          (job_outcome files tf t preset crf env) env.completion_order,
        manifest_written := none, playlist_written := none,
        concat_invoked := false, playlist_file_exists := false } := by
  unfold merge_body
  unfold job_outcome at hne ⊢
  simp only [h1, h2, Bool.not_false, Bool.false_eq_true, if_false, if_true, hne]

theorem merge_cleanup_eq (files : List String) (tf op : String) (t : TargetProfile)
    (preset : String) (crf : Int) (env : JobEnv) :
    (merge_videos_in_folder files tf op t preset crf env).cleanup =
      run_cleanup (merge_body files tf op t preset crf env).playlist_file_exists env := rfl

theorem merge_result_eq_body (files : List String) (tf op : String) (t : TargetProfile)
    (preset : String) (crf : Int) (env : JobEnv) :
    (merge_videos_in_folder files tf op t preset crf env).result =
      (merge_body files tf op t preset crf env).result := rfl

theorem timestamp_segment_loop_spec (segs : List (String × Rat × String)) :
    ∀ (i : Nat) (c : Rat),
      timestamp_segment_loop i c segs =
        ((List.range segs.length).map (fun j =>
          format_timestamp (c + ((segs.take j).map (fun s => s.2.1)).sum) ++
            " - Start of: " ++ os_path_basename ((segs.getD j ("", 0, "")).2.2) ++
            " (Segment " ++ toString (i + j + 1) ++ ")\n"),
         c + (segs.map (fun s => s.2.1)).sum) := by
  induction segs with
  | nil =>
    intro i c
    simp [timestamp_segment_loop]
  | cons s rest ih =>
    intro i c
    obtain ⟨np, d, op⟩ := s
    rw [timestamp_segment_loop, ih (i + 1) (qadd c d), qadd_eq]
    rw [List.length_cons, List.range_succ_eq_map, List.map_cons, List.map_map]
    refine Prod.ext ?_ ?_
    · dsimp only
      rw [List.cons_eq_cons]
      refine ⟨?_, ?_⟩
      · simp
      · apply List.map_congr_left
        intro j _
        simp only [Function.comp]
        rw [List.take_succ_cons, List.map_cons, List.sum_cons, List.getD_cons_succ]
        have h1 : c + (d + ((rest.take j).map (fun s => s.2.1)).sum) =
            c + d + ((rest.take j).map (fun s => s.2.1)).sum := by ring
        have h2 : i + (j + 1) + 1 = i + 1 + j + 1 := by omega
        rw [h1, h2]
    · dsimp only
      rw [List.map_cons, List.sum_cons]
      ring

theorem remove_attempts_loop_le (attempt_succeeds : Nat → Bool) :
    ∀ (fuel i : Nat) (delay : Rat),
      (remove_attempts_loop attempt_succeeds i fuel delay).attempts ≤ fuel := by
  intro fuel
  induction fuel with
  | zero => intro i delay; exact Nat.le_refl 0
  | succ f ih =>
    intro i delay
    rw [remove_attempts_loop]
    split
    · exact Nat.succ_le_succ (Nat.zero_le f)
    · exact Nat.succ_le_succ (ih (i + 1) _)

theorem remove_attempts_loop_sleeps (attempt_succeeds : Nat → Bool) :
    ∀ (fuel i : Nat) (delay : Rat),
      (remove_attempts_loop attempt_succeeds i fuel delay).sleeps =
        (List.range (remove_attempts_loop attempt_succeeds i fuel delay).sleeps.length).map
          (fun j => delay * ((3 : Rat) / 2) ^ j) := by
  intro fuel
  induction fuel with
  | zero => intro i delay; rfl
  | succ f ih =>
    intro i delay
    rw [remove_attempts_loop]
    split
    · rfl
    · dsimp only
      rw [ih (i + 1) (qmul delay (Rat.divInt 3 2))]
      simp only [List.length_cons, List.length_map, List.length_range]
      rw [List.range_succ_eq_map, List.map_cons, List.map_map]
      congr 1
      · simp
      · apply List.map_congr_left
        intro j _
        simp only [Function.comp]
        rw [qmul_eq]
        have hd : Rat.divInt 3 2 = (3 : Rat) / 2 := by
          rw [Rat.divInt_eq_div]
          norm_num
        rw [hd, pow_succ]
        ring

theorem remove_temp_exhausted (attempt_succeeds : Nat → Bool)
    (h : ∀ i, attempt_succeeds i = false) :
    remove_temp_folder_robustly true attempt_succeeds 5 1 =
      { attempts := 5,
        sleeps := [1, Rat.divInt 3 2, Rat.divInt 9 4, Rat.divInt 27 8, Rat.divInt 81 16],
        removed := false } := by
  simp only [remove_temp_folder_robustly, if_true, remove_attempts_loop, h,
    Bool.false_eq_true, if_false]
  rfl

theorem merge_result_ignores_removal (files : List String) (tf op : String)
    (t : TargetProfile) (preset : String) (crf : Int) (env : JobEnv)
    (f : Nat → Bool) (b : Bool) :
    (merge_videos_in_folder files tf op t preset crf
      { env with temp_remove_ok := f, playlist_remove_ok := b }).result =
    (merge_videos_in_folder files tf op t preset crf env).result := rfl

theorem map_getD_range_comp {α β : Type} (l : List α) (d : α) (h : α → β) :
    (List.range l.length).map (fun i => h (l.getD i d)) = l.map h := by
  have hc : (fun i => h (l.getD i d)) = h ∘ (fun i => l.getD i d) := rfl
  rw [hc, ← List.map_map, map_getD_range]

theorem merge_segments_eq_body (files : List String) (tf op : String) (t : TargetProfile)
    (preset : String) (crf : Int) (env : JobEnv) :
    (merge_videos_in_folder files tf op t preset crf env).segments_used =
      (merge_body files tf op t preset crf env).segments_used := rfl

theorem merge_body_manifest_from_segments (files : List String) (tf op : String)
    (t : TargetProfile) (preset : String) (crf : Int) (env : JobEnv) :
    ∀ m, (merge_body files tf op t preset crf env).manifest_written = some m →
      m = timestamp_file_lines op (merge_body files tf op t preset crf env).segments_used := by
  unfold merge_body
  dsimp only
  repeat' split
  all_goals intro m hm
  all_goals first
    | (cases hm; rfl)
    | simp at hm

theorem merge_body_playlist_from_segments (files : List String) (tf op : String)
    (t : TargetProfile) (preset : String) (crf : Int) (env : JobEnv) :
    ∀ pl, (merge_body files tf op t preset crf env).playlist_written = some pl →
      pl = (merge_body files tf op t preset crf env).segments_used.map
        (fun s => playlist_line s.1) := by
  unfold merge_body
  dsimp only
  repeat' split
  all_goals intro pl hpl
  all_goals first
    | (cases hpl; rfl)
    | simp at hpl

/-- C6 counterexample: when the filesystem refuses the append-mode open,
`log_failed_video` raises the OSError to its caller instead of swallowing
it, so the claim "never raises an exception to its caller, even when the
ledger file cannot be opened or written" is false. -/
theorem c6_counterexample :
    log_failed_video false "/videos/a.mp4" "probe failed" = .raised .osError := rfl

/-- C6 (amended): `log_failed_video` appends one formatted
`<path> | Reason: <reason>` line and returns when the ledger file can be
opened and written; when the open or write fails, the error propagates to
the caller. -/
theorem c6_ledger_append (video_path reason : String) :
    log_failed_video true video_path reason =
      .written (video_path ++ " | Reason: " ++ reason ++ "\n") ∧
    log_failed_video false video_path reason = .raised .osError :=
  ⟨rfl, rfl⟩

/-- C9: any exception while evaluating compliance (zero-denominator,
non-numeric or non-string frame rate, non-integer width or height) is
caught and leaves the file marked as needing normalization; compliance
evaluation never raises out of the per-file pipeline. -/
theorem c9_parse_failure_forces_normalization (vi : VideoInfo) (ai : Option AudioInfo)
    (t : TargetProfile) (e : PyErr)
    (h : video_compliant_check vi t = .error e) :
    needs_normalization vi ai t = true := by
  unfold needs_normalization
  rw [h]

/-- C9 witness: the zero-denominator frame rate `30/0` raises
`ZeroDivisionError` inside the compliance check and the file is sent to
normalization. -/
theorem c9_witness :
    video_compliant_check vi_zero_den target_profile = .error .zeroDivisionError ∧
    needs_normalization vi_zero_den none target_profile = true :=
  ⟨rfl, c9_parse_failure_forces_normalization vi_zero_den none target_profile
    .zeroDivisionError rfl⟩

/-- C2 counterexample: a file whose frame rate `30001/1000` differs from
the 30 fps target by exactly `1/1000` is compliant under the claim's
inclusive tolerance, yet the code's strict `< 0.001` comparison judges it
non-compliant and invokes the external encoder on it. -/
theorem c2_counterexample :
    spec_compliant vi_boundary none target_profile = true ∧
    needs_normalization vi_boundary none target_profile = true ∧
    (normalize_single_video "/in/boundary.mp4" "/in/temp_normalized_videos" target_profile
      ENCODING_PRESET ENCODING_CRF fe_boundary).encoder_invoked = true :=
  ⟨by decide, by decide, by decide⟩

/-- C2 (amended): for every probed file the external encoder is invoked if
and only if the file fails the code's compliance check — exact equality on
codec name, width, height and pixel format plus frame rate within a STRICT
0.001 absolute difference (a difference of exactly 0.001 already forces
re-encoding), with audio absent or exactly matching — and a compliant file
is passed through with its original path, never re-encoded. -/
theorem c2_normalizer_iff_noncompliant (p tf : String) (t : TargetProfile)
    (preset : String) (crf : Int) (fe : FileEnv) (vi : VideoInfo) (ai : Option AudioInfo)
    (hp : fe.probe = .ok vi ai) :
    ((normalize_single_video p tf t preset crf fe).encoder_invoked = true ↔
      ¬(video_compliant_check vi t = .ok true ∧ audio_compliant_check ai t = true)) ∧
    (video_compliant_check vi t = .ok true → audio_compliant_check ai t = true →
      (normalize_single_video p tf t preset crf fe).result =
        (some p, fe.duration_of_original)) := by
  have hiff : (needs_normalization vi ai t = true) ↔
      ¬(video_compliant_check vi t = .ok true ∧ audio_compliant_check ai t = true) := by
    unfold needs_normalization
    cases hv : video_compliant_check vi t with
    | error e => simp
    | ok vc => cases vc <;> cases hac : audio_compliant_check ai t <;> simp [hac]
  have hinv : (normalize_single_video p tf t preset crf fe).encoder_invoked =
      needs_normalization vi ai t := by
    unfold normalize_single_video
    rw [hp]
    by_cases hn : needs_normalization vi ai t
    · by_cases he : fe.encode_ok <;> simp [hn, he]
    · simp [hn]
  refine ⟨by rw [hinv]; exact hiff, ?_⟩
  intro hv hac
  have hn : needs_normalization vi ai t = false := by
    unfold needs_normalization
    rw [hv]
    simp [hac]
  unfold normalize_single_video
  rw [hp]
  simp [hn]

/-- C2 witness: a file probed exactly at the target profile is passed
through with its original path and its re-probed duration; the encoder is
not consulted. -/
theorem c2_witness :
    fe_success.probe = .ok vi_compliant none ∧
    (normalize_single_video "/in/a.mp4" "/in/temp_normalized_videos" target_profile
      ENCODING_PRESET ENCODING_CRF fe_success).result = (some "/in/a.mp4", some 3) :=
  ⟨rfl, by
    have h := c2_normalizer_iff_noncompliant "/in/a.mp4" "/in/temp_normalized_videos"
      target_profile ENCODING_PRESET ENCODING_CRF fe_success vi_compliant none rfl
    rw [h.2 rfl rfl]
    rfl⟩

/-- C7: a source with no audio stream is vacuously audio-compliant, and
when such a file is normalized the encode command is exactly the base
command with the `-an` no-audio flag appended — no audio codec arguments
and no silent track are ever added. -/
theorem c7_no_audio_fidelity (p tf : String) (t : TargetProfile) (preset : String)
    (crf : Int) (fe : FileEnv) (vi : VideoInfo)
    (hp : fe.probe = .ok vi none) :
    audio_compliant_check none t = true ∧
    ((normalize_single_video p tf t preset crf fe).command_used =
      if needs_normalization vi none t then
        some (normalize_command_base p (normalized_output_path tf p) t preset crf ++ ["-an"])
      else none) ∧
    "-an" ∈ normalize_command p (normalized_output_path tf p) t false preset crf := by
  refine ⟨rfl, ?_, ?_⟩
  · unfold normalize_single_video
    rw [hp]
    by_cases hn : needs_normalization vi none t
    · by_cases he : fe.encode_ok <;> simp [hn, he, normalize_command]
    · simp [hn]
  · unfold normalize_command
    simp

/-- C7 witness: the non-compliant no-audio SD file is encoded with the
`-an`-terminated command. -/
theorem c7_witness :
    fe_sd_no_audio.probe = .ok vi_sd_no_audio none ∧
    (normalize_single_video "/in/c.mp4" "/in/temp_normalized_videos" target_profile
      ENCODING_PRESET ENCODING_CRF fe_sd_no_audio).command_used =
      some (normalize_command_base "/in/c.mp4"
        (normalized_output_path "/in/temp_normalized_videos" "/in/c.mp4") target_profile
        ENCODING_PRESET ENCODING_CRF ++ ["-an"]) := by
  refine ⟨rfl, ?_⟩
  have h := c7_no_audio_fidelity "/in/c.mp4" "/in/temp_normalized_videos" target_profile
    ENCODING_PRESET ENCODING_CRF fe_sd_no_audio vi_sd_no_audio rfl
  rw [h.2.1]
  decide

/-- C10: a file can pass probing and compliance, be used with its original
path, and then lose only the duration re-probe: it is dropped from the
final segment list while the Failure Ledger receives no entry for it — a
dropped file is not always accounted for in the ledger. -/
theorem c10_duration_probe_gap :
    (normalize_single_video "/in/a.mp4" "/in/temp_normalized_videos" target_profile
      ENCODING_PRESET ENCODING_CRF fe_duration_fail).result = (some "/in/a.mp4", none) ∧
    (normalize_single_video "/in/a.mp4" "/in/temp_normalized_videos" target_profile
      ENCODING_PRESET ENCODING_CRF fe_duration_fail).logs = [] ∧
    (merge_videos_in_folder ["/in/a.mp4", "/in/b.mp4"] "/in/temp_normalized_videos"
      "/out/merged_video.mp4" target_profile ENCODING_PRESET ENCODING_CRF
      env_duration_gap).segments_used = [("/in/b.mp4", 3, "/in/b.mp4")] ∧
    (merge_videos_in_folder ["/in/a.mp4", "/in/b.mp4"] "/in/temp_normalized_videos"
      "/out/merged_video.mp4" target_profile ENCODING_PRESET ENCODING_CRF
      env_duration_gap).ledger = [] :=
  ⟨by decide, by decide, by decide, by decide⟩

theorem isEmpty_false_of_ne_nil {α : Type} {l : List α} (h : l ≠ []) : l.isEmpty = false := by
  cases l with
  | nil => exact absurd rfl h
  | cons a t => rfl

theorem merge_unfold (files : List String) (tf op : String) (t : TargetProfile)
    (preset : String) (crf : Int) (env : JobEnv) :
    merge_videos_in_folder files tf op t preset crf env =
      { result := (merge_body files tf op t preset crf env).result,
        ledger := (merge_body files tf op t preset crf env).ledger,
        segments_used := (merge_body files tf op t preset crf env).segments_used,
        manifest_written := (merge_body files tf op t preset crf env).manifest_written,
        playlist_written := (merge_body files tf op t preset crf env).playlist_written,
        concat_invoked := (merge_body files tf op t preset crf env).concat_invoked,
        cleanup := run_cleanup (merge_body files tf op t preset crf env).playlist_file_exists
          env } := rfl

/-- C1: for every job that reaches the normalization stage, whatever order
the parallel workers complete in (any permutation of the submission
indices), the segment list handed to the timestamp manifest builder and to
the concatenation playlist equals the per-file outcome mapped over the
lexicographically sorted discovered paths, restricted to the files whose
whole pipeline succeeded; the manifest and playlist are built from exactly
that list. -/
theorem c1_order_invariance (files : List String) (tf op : String) (t : TargetProfile)
    (preset : String) (crf : Int) (env : JobEnv)
    (h1 : env.interrupted = false)
    (h2 : env.completion_order.Perm (List.range (sort_strings files).length)) :
    (merge_videos_in_folder files tf op t preset crf env).segments_used =
      (sort_strings files).filterMap
        (fun p => segment_of tf t preset crf (env.file_env p) p) ∧
    (∀ m, (merge_videos_in_folder files tf op t preset crf env).manifest_written = some m →
      m = timestamp_file_lines op
        ((merge_videos_in_folder files tf op t preset crf env).segments_used)) ∧
    (∀ pl, (merge_videos_in_folder files tf op t preset crf env).playlist_written = some pl →
      pl = ((merge_videos_in_folder files tf op t preset crf env).segments_used).map
        (fun s => playlist_line s.1)) := by
  refine ⟨?_, ?_, ?_⟩
  · rw [merge_segments_eq_body, merge_body_segments files tf op t preset crf env h1,
      collect_segments_eq _ _ _ h2]
    exact filterMap_getD_range (sort_strings files) ""
      (fun p => segment_of tf t preset crf (env.file_env p) p)
  · intro m hm
    exact merge_body_manifest_from_segments files tf op t preset crf env m hm
  · intro pl hpl
    exact merge_body_playlist_from_segments files tf op t preset crf env pl hpl

/-- C1 witness: two files submitted as `b, a`, workers completing in
reverse order `[1, 0]`, still yield the lexicographic segment order `a`
(the probe of `b` fails, so only `a` survives). -/
theorem c1_witness :
    env_two_files.interrupted = false ∧
    env_two_files.completion_order.Perm
      (List.range (sort_strings ["/in/b.mp4", "/in/a.mp4"]).length) ∧
    (merge_videos_in_folder ["/in/b.mp4", "/in/a.mp4"] "/in/temp_normalized_videos"
      "/out/merged_video.mp4" target_profile ENCODING_PRESET ENCODING_CRF
      env_two_files).segments_used =
      (sort_strings ["/in/b.mp4", "/in/a.mp4"]).filterMap
        (fun p => segment_of "/in/temp_normalized_videos" target_profile ENCODING_PRESET
          ENCODING_CRF (env_two_files.file_env p) p) ∧
    (merge_videos_in_folder ["/in/b.mp4", "/in/a.mp4"] "/in/temp_normalized_videos"
      "/out/merged_video.mp4" target_profile ENCODING_PRESET ENCODING_CRF
      env_two_files).segments_used = [("/in/a.mp4", 3, "/in/a.mp4")] :=
  ⟨rfl, by decide,
   (c1_order_invariance ["/in/b.mp4", "/in/a.mp4"] "/in/temp_normalized_videos"
      "/out/merged_video.mp4" target_profile ENCODING_PRESET ENCODING_CRF env_two_files
      rfl (by decide)).1,
   by decide⟩

/-- C4: in the timestamp manifest each segment line carries the sum of the
preceding durations formatted `HH:MM:SS.mmm`, the zero offset formats as
`00:00:00.000` (so the first line starts there), the cumulative offsets are
non-decreasing when every duration is non-negative, and the trailing line
is the total-duration line for d1+...+dn. -/
theorem c4_manifest_offsets (output_path : String) (segs : List (String × Rat × String))
    (hnn : ∀ s ∈ segs, 0 ≤ s.2.1) (hne : segs ≠ []) :
    (timestamp_segment_loop 0 0 segs).1 =
      (List.range segs.length).map (fun j =>
        format_timestamp (((segs.take j).map (fun s => s.2.1)).sum) ++ " - Start of: " ++
        os_path_basename ((segs.getD j ("", 0, "")).2.2) ++ " (Segment " ++
        toString (j + 1) ++ ")\n") ∧
    format_timestamp 0 = "00:00:00.000" ∧
    (timestamp_segment_loop 0 0 segs).1.head? =
      some (format_timestamp 0 ++ " - Start of: " ++
        os_path_basename ((segs.getD 0 ("", 0, "")).2.2) ++ " (Segment " ++
        toString 1 ++ ")\n") ∧
    (∀ j : Nat, ((segs.take j).map (fun s => s.2.1)).sum ≤
      ((segs.take (j + 1)).map (fun s => s.2.1)).sum) ∧
    (timestamp_file_lines output_path segs).getLast? =
      some (total_duration_line ((segs.map (fun s => s.2.1)).sum)) := by
  have hspec := timestamp_segment_loop_spec segs 0 0
  have hlines : (timestamp_segment_loop 0 0 segs).1 =
      (List.range segs.length).map (fun j =>
        format_timestamp (((segs.take j).map (fun s => s.2.1)).sum) ++ " - Start of: " ++
        os_path_basename ((segs.getD j ("", 0, "")).2.2) ++ " (Segment " ++
        toString (j + 1) ++ ")\n") := by
    rw [hspec]
    dsimp only
    apply List.map_congr_left
    intro j _
    rw [zero_add, Nat.zero_add]
  refine ⟨hlines, rfl, ?_, ?_, ?_⟩
  · cases segs with
    | nil => exact absurd rfl hne
    | cons s rest =>
      rw [hlines, List.length_cons, List.range_succ_eq_map, List.map_cons]
      rfl
  · intro j
    rcases Nat.lt_or_ge j segs.length with hlt | hge
    · have hmap : ∀ k : Nat, ((segs.take k).map (fun s => s.2.1)).sum =
          ((segs.map (fun s => s.2.1)).take k).sum := by
        intro k
        rw [List.map_take]
      rw [hmap j, hmap (j + 1)]
      have hlt' : j < (segs.map (fun s => s.2.1)).length := by
        rw [List.length_map]; exact hlt
      rw [List.sum_take_succ _ j hlt']
      have hnn' : 0 ≤ (segs.map (fun s => s.2.1)).get ⟨j, hlt'⟩ := by
        rw [List.get_eq_getElem, List.getElem_map]
        exact hnn _ (List.getElem_mem _)
      exact le_add_of_nonneg_right hnn'
    · rw [List.take_of_length_le hge, List.take_of_length_le (Nat.le_succ_of_le hge)]
  · unfold timestamp_file_lines
    rw [List.getLast?_concat]
    have htot : (timestamp_segment_loop 0 0 segs).2 = (segs.map (fun s => s.2.1)).sum := by
      rw [hspec]
      dsimp only
      rw [zero_add]
    rw [htot]

/-- C4 witness: the two sample segments (durations 5 and 1.5 seconds) have
non-negative durations, and the manifest starts at the zero offset. -/
theorem c4_witness :
    (∀ s ∈ segs_sample, 0 ≤ s.2.1) ∧ segs_sample ≠ [] ∧
    format_timestamp 0 = "00:00:00.000" ∧
    (timestamp_segment_loop 0 0 segs_sample).1.head? =
      some (format_timestamp 0 ++ " - Start of: " ++
        os_path_basename ((segs_sample.getD 0 ("", 0, "")).2.2) ++ " (Segment " ++
        toString 1 ++ ")\n") ∧
    (timestamp_segment_loop 0 0 segs_sample).1 =
      ["00:00:00.000 - Start of: a.mp4 (Segment 1)\n",
       "00:00:05.000 - Start of: b.mp4 (Segment 2)\n"] :=
  ⟨by decide, by decide,
   (c4_manifest_offsets "/out/merged_video.mp4" segs_sample (by decide) (by decide)).2.1,
   (c4_manifest_offsets "/out/merged_video.mp4" segs_sample (by decide) (by decide)).2.2.1,
   by decide⟩

/-- C5 counterexample: with one fully successful input and a filesystem
that refuses the timestamp-manifest write, `merge_videos_in_folder` does
not warn-and-continue: the error propagates out uncaught, the playlist is
never built and concatenation is never invoked, refuting the claim that a
manifest write failure is only logged and the job proceeds. -/
theorem c5_counterexample :
    (merge_videos_in_folder ["/in/a.mp4"] "/in/temp_normalized_videos"
      "/out/merged_video.mp4" target_profile ENCODING_PRESET ENCODING_CRF
      env_manifest_fail).result = .raised .osError ∧
    (merge_videos_in_folder ["/in/a.mp4"] "/in/temp_normalized_videos"
      "/out/merged_video.mp4" target_profile ENCODING_PRESET ENCODING_CRF
      env_manifest_fail).concat_invoked = false ∧
    (merge_videos_in_folder ["/in/a.mp4"] "/in/temp_normalized_videos"
      "/out/merged_video.mp4" target_profile ENCODING_PRESET ENCODING_CRF
      env_manifest_fail).playlist_written = none :=
  ⟨by decide, by decide, by decide⟩

/-- C5 (amended): if writing the timestamp manifest fails, the exception
escapes `merge_videos_in_folder` uncaught (there is no handler around the
manifest write): the playlist is not built, concatenation is not invoked,
and only the `finally` cleanup still runs; the failure is not confined to
a warning. -/
theorem c5_manifest_failure_aborts (files : List String) (tf op : String)
    (t : TargetProfile) (preset : String) (crf : Int) (env : JobEnv)
    (h1 : env.interrupted = false) (h2 : env.manifest_write_ok = false)
    (hne : (merge_videos_in_folder files tf op t preset crf env).segments_used ≠ []) :
    (merge_videos_in_folder files tf op t preset crf env).result = .raised .osError ∧
    (merge_videos_in_folder files tf op t preset crf env).concat_invoked = false ∧
    (merge_videos_in_folder files tf op t preset crf env).playlist_written = none ∧
    (merge_videos_in_folder files tf op t preset crf env).cleanup = run_cleanup false env := by
  have hne' : (collect_segments (sort_strings files) (job_outcome files tf t preset crf env)
      env.completion_order).isEmpty = false := by
    apply isEmpty_false_of_ne_nil
    rw [merge_segments_eq_body, merge_body_segments files tf op t preset crf env h1] at hne
    exact hne
  have hb := merge_body_manifest_fail files tf op t preset crf env h1 h2 hne'
  rw [merge_unfold files tf op t preset crf env, hb]
  exact ⟨rfl, rfl, rfl, rfl⟩

/-- C5 witness: the concrete manifest-write-failure environment satisfies
the amended claim's hypotheses and the job raises. -/
theorem c5_witness :
    env_manifest_fail.interrupted = false ∧
    env_manifest_fail.manifest_write_ok = false ∧
    (merge_videos_in_folder ["/in/a.mp4"] "/in/temp_normalized_videos"
      "/out/merged_video.mp4" target_profile ENCODING_PRESET ENCODING_CRF
      env_manifest_fail).result = .raised .osError :=
  ⟨rfl, rfl,
   (c5_manifest_failure_aborts ["/in/a.mp4"] "/in/temp_normalized_videos"
     "/out/merged_video.mp4" target_profile ENCODING_PRESET ENCODING_CRF
     env_manifest_fail rfl rfl (by decide)).1⟩

/-- C8: on every exit path of `merge_videos_in_folder` from the
normalization stage (success, per-file or aggregate failure, concatenation
failure, manifest-write exception, or user interrupt), the `finally` block
runs exactly once: temp-folder removal makes at most 5 attempts whose
sleeps grow geometrically from 1 second by factor 1.5; exhausting all 5
attempts produces the warning trace (5 attempts, not removed) and never
changes the job's result; the playlist file's removal is attempted
whenever the playlist file exists, deleting it when the filesystem allows,
and a removal failure also never changes the job's result. -/
theorem c8_cleanup_guarantee (files : List String) (tf op : String) (t : TargetProfile)
    (preset : String) (crf : Int) (env : JobEnv) :
    (merge_videos_in_folder files tf op t preset crf env).cleanup.temp.attempts ≤ 5 ∧
    ((merge_videos_in_folder files tf op t preset crf env).cleanup.temp.sleeps =
      (List.range
        (merge_videos_in_folder files tf op t preset crf env).cleanup.temp.sleeps.length).map
        (fun j => ((3 : Rat) / 2) ^ j)) ∧
    ((∀ i, env.temp_remove_ok i = false) →
      (merge_videos_in_folder files tf op t preset crf env).cleanup.temp =
        { attempts := 5,
          sleeps := [1, Rat.divInt 3 2, Rat.divInt 9 4, Rat.divInt 27 8, Rat.divInt 81 16],
          removed := false }) ∧
    (∀ pl, (merge_videos_in_folder files tf op t preset crf env).playlist_written = some pl →
      (merge_videos_in_folder files tf op t preset
        crf env).cleanup.playlist_removal_attempted = true) ∧
    ((merge_videos_in_folder files tf op t preset crf env).cleanup.playlist_deleted =
      ((merge_videos_in_folder files tf op t preset crf env).cleanup.playlist_removal_attempted
        && env.playlist_remove_ok)) ∧
    (∀ (f : Nat → Bool) (b : Bool),
      (merge_videos_in_folder files tf op t preset crf
        { env with temp_remove_ok := f, playlist_remove_ok := b }).result =
      (merge_videos_in_folder files tf op t preset crf env).result) := by
  have htemp : (merge_videos_in_folder files tf op t preset crf env).cleanup.temp =
      remove_attempts_loop env.temp_remove_ok 0 5 1 := rfl
  refine ⟨?_, ?_, ?_, ?_, rfl, ?_⟩
  · rw [htemp]
    exact remove_attempts_loop_le env.temp_remove_ok 5 0 1
  · rw [htemp]
    have h := remove_attempts_loop_sleeps env.temp_remove_ok 5 0 1
    simpa [one_mul] using h
  · intro hall
    exact remove_temp_exhausted env.temp_remove_ok hall
  · intro pl hpl
    have hpl' : (merge_body files tf op t preset crf env).playlist_written = some pl := hpl
    have hsome : (merge_body files tf op t preset crf env).playlist_written.isSome = true := by
      rw [hpl']
      rfl
    exact merge_body_playlist_exists files tf op t preset crf env hsome
  · intro f b
    exact merge_result_ignores_removal files tf op t preset crf env f b

/-- C8 witness: with every removal attempt failing, the job still returns
`true` and the cleanup trace shows 5 attempts with the 1, 1.5, 2.25,
3.375, 5.0625 second backoff sleeps. -/
theorem c8_witness :
    (∀ i, env_locked_temp.temp_remove_ok i = false) ∧
    (merge_videos_in_folder ["/in/a.mp4"] "/in/temp_normalized_videos"
      "/out/merged_video.mp4" target_profile ENCODING_PRESET ENCODING_CRF
      env_locked_temp).cleanup.temp =
      { attempts := 5,
        sleeps := [1, Rat.divInt 3 2, Rat.divInt 9 4, Rat.divInt 27 8, Rat.divInt 81 16],
        removed := false } ∧
    (merge_videos_in_folder ["/in/a.mp4"] "/in/temp_normalized_videos"
      "/out/merged_video.mp4" target_profile ENCODING_PRESET ENCODING_CRF
      env_locked_temp).result = .returned true :=
  ⟨fun _ => rfl,
   (c8_cleanup_guarantee ["/in/a.mp4"] "/in/temp_normalized_videos"
     "/out/merged_video.mp4" target_profile ENCODING_PRESET ENCODING_CRF
     env_locked_temp).2.2.1 (fun _ => rfl),
   by decide⟩

/-- C3: when every sorted input file either fully succeeds or fails its
probe/encode with exactly one ledger entry, at least one file of each kind
exists (0 < K < N), and the manifest write, playlist write and final
concat all succeed, then `merge_videos_in_folder` returns `true`, the
Failure Ledger holds exactly K entries (K = number of failing files), and
the concatenation playlist holds exactly N − K lines. -/
theorem c3_partial_failure_tolerance (files : List String) (tf op : String)
    (t : TargetProfile) (preset : String) (crf : Int) (env : JobEnv)
    (h1 : env.interrupted = false)
    (h2 : env.completion_order.Perm (List.range (sort_strings files).length))
    (h3 : ∀ p ∈ sort_strings files,
      file_fully_succeeds tf t preset crf (env.file_env p) p = true ∨
      file_fails_logged tf t preset crf (env.file_env p) p = true)
    (_hK : 0 < (sort_strings files).countP
      (fun p => !(file_fully_succeeds tf t preset crf (env.file_env p) p)))
    (hNK : 0 < (sort_strings files).countP
      (fun p => file_fully_succeeds tf t preset crf (env.file_env p) p))
    (h6 : env.manifest_write_ok = true) (h7 : env.playlist_create_ok = true)
    (h8 : env.playlist_write_ok = true) (h9 : env.concat = ConcatOutcome.ok) :
    (merge_videos_in_folder files tf op t preset crf env).result = .returned true ∧
    (merge_videos_in_folder files tf op t preset crf env).ledger.length =
      (sort_strings files).countP
        (fun p => !(file_fully_succeeds tf t preset crf (env.file_env p) p)) ∧
    (∃ pl, (merge_videos_in_folder files tf op t preset crf env).playlist_written = some pl ∧
      pl.length = (sort_strings files).length -
        (sort_strings files).countP
          (fun p => !(file_fully_succeeds tf t preset crf (env.file_env p) p))) := by
  have hsegs_eq : collect_segments (sort_strings files)
      (job_outcome files tf t preset crf env) env.completion_order =
      (sort_strings files).filterMap
        (fun p => segment_of tf t preset crf (env.file_env p) p) := by
    rw [collect_segments_eq _ _ _ h2]
    exact filterMap_getD_range (sort_strings files) ""
      (fun p => segment_of tf t preset crf (env.file_env p) p)
  have hlen_segs : ((sort_strings files).filterMap
      (fun p => segment_of tf t preset crf (env.file_env p) p)).length =
      (sort_strings files).countP
        (fun p => file_fully_succeeds tf t preset crf (env.file_env p) p) :=
    length_filterMap_eq_countP _ _
  have hnonempty : (collect_segments (sort_strings files)
      (job_outcome files tf t preset crf env) env.completion_order).isEmpty = false := by
    apply isEmpty_false_of_ne_nil
    rw [hsegs_eq]
    intro hnil
    rw [hnil] at hlen_segs
    simp at hlen_segs
    omega
  have hb := merge_body_happy files tf op t preset crf env h1 h6 h7 h8 h9 hnonempty
  rw [merge_unfold files tf op t preset crf env, hb]
  refine ⟨rfl, ?_, ?_⟩
  · dsimp only
    rw [worker_logs_length (job_outcome files tf t preset crf env) env.completion_order
      (sort_strings files).length h2]
    have hcomp : (List.range (sort_strings files).length).map
        (fun i => ((job_outcome files tf t preset crf env) i).logs.length) =
        (sort_strings files).map
          (fun p => (normalize_single_video p tf t preset crf (env.file_env p)).logs.length) :=
      map_getD_range_comp (sort_strings files) ""
        (fun p => (normalize_single_video p tf t preset crf (env.file_env p)).logs.length)
    rw [hcomp]
    apply sum_map_eq_countP (sort_strings files)
      (fun p => (normalize_single_video p tf t preset crf (env.file_env p)).logs.length)
      (fun p => file_fully_succeeds tf t preset crf (env.file_env p) p)
    intro x hx
    rcases h3 x hx with hs | hf
    · left
      refine ⟨hs, ?_⟩
      rw [succeeds_logs_nil x tf t preset crf (env.file_env x) hs]
      rfl
    · right
      exact ⟨fails_not_succeeds x tf t preset crf (env.file_env x) hf,
        fails_logged_logs_length x tf t preset crf (env.file_env x) hf⟩
  · dsimp only
    refine ⟨_, rfl, ?_⟩
    rw [List.length_map, hsegs_eq, hlen_segs]
    have hsum := countP_true_add_countP_false (sort_strings files)
      (fun p => file_fully_succeeds tf t preset crf (env.file_env p) p)
    omega

/-- C3 witness: two input files, `b` failing its probe and `a` succeeding,
workers completing in reverse order: the job returns `true`, the Failure
Ledger holds exactly one entry, and the playlist exactly one line. -/
theorem c3_witness :
    (merge_videos_in_folder ["/in/b.mp4", "/in/a.mp4"] "/in/temp_normalized_videos"
      "/out/merged_video.mp4" target_profile ENCODING_PRESET ENCODING_CRF
      env_two_files).result = .returned true ∧
    (merge_videos_in_folder ["/in/b.mp4", "/in/a.mp4"] "/in/temp_normalized_videos"
      "/out/merged_video.mp4" target_profile ENCODING_PRESET ENCODING_CRF
      env_two_files).ledger.length = 1 ∧
    (∃ pl, (merge_videos_in_folder ["/in/b.mp4", "/in/a.mp4"] "/in/temp_normalized_videos"
      "/out/merged_video.mp4" target_profile ENCODING_PRESET ENCODING_CRF
      env_two_files).playlist_written = some pl ∧ pl.length = 1) := by
  have h := c3_partial_failure_tolerance ["/in/b.mp4", "/in/a.mp4"]
    "/in/temp_normalized_videos" "/out/merged_video.mp4" target_profile ENCODING_PRESET
    ENCODING_CRF env_two_files rfl (by decide) (by decide) (by decide) (by decide)
    rfl rfl rfl rfl
  refine ⟨h.1, ?_, ?_⟩
  · rw [h.2.1]
    decide
  · obtain ⟨pl, hpl, hlen⟩ := h.2.2
    exact ⟨pl, hpl, by rw [hlen]; decide⟩
